import Mathlib

/-
Verification of the Agilex5 SDRAM bring-up driver
(drivers/ddr/altera/sdram_agilex5.c and arch/arm/mach-socfpga/misc_soc64.c).

The driver is embedded shallowly: hardware registers and collaborator
results (the IOSSM mailbox layer, the device-tree decoder, the handoff
reader) are supplied through explicit oracle records, machine integers
are Nat, and the orchestrator `sdram_mmr_init_full` is a pure function
from those oracles to an observable run result.  Collaborator code that
lives outside the two source files (the iossm_mailbox layer, the handoff
reader, the scratch-register mask constants) is modelled from the spec;
each such definition carries a doc comment saying so.
-/

set_option maxRecDepth 8000

/-- Reset type enumeration, from enum reset_type in sdram_agilex5.c. -/
inductive reset_type where
  | POR_RESET
  | WARM_RESET
  | COLD_RESET
  | NCONFIG
  | JTAG_CONFIG
  | RSU_RECONFIG
deriving DecidableEq

/-- Error kinds of the bring-up run, named after the spec's error list
(section 7).  The source returns collaborator errno codes; the mapping from
each exit site to its spec name is fixed by the orchestrator embedding. -/
inductive DDRError where
  | HandoffUnavailable
  | ProfileNotFound
  | QueryFailed
  | CalibrationFailed
  | GeometryExceedsHardware
  | FullInitFailed
  | DescriptorDecodeFailed
deriving DecidableEq

/-- Outcome of one orchestrator run.  `ok` models `return 0` (base address
and resolved size handed back through priv->info), `err e` models an error
return code reaching the caller, and `hang e` models a call to hang(),
which halts the boot and never returns; the tag records which fatal
condition triggered the halt. -/
inductive InitOutcome where
  | ok (base : Nat) (size : Nat)
  | err (e : DDRError)
  | hang (e : DDRError)
deriving DecidableEq

def InitOutcome.isOk : InitOutcome → Bool
  | .ok _ _ => true
  | _ => false

/-- One entry of bd_info.bi_dram: a start address and a size. -/
structure Bank where
  start : Nat
  size : Nat
deriving DecidableEq

/-- One entry of the fixed bank table, struct dram_bank_info_s. -/
structure dram_bank_info_s where
  start : Nat
  max_size : Nat
deriving DecidableEq

def MEMORY_BANK_MAX_COUNT : Nat := 3

def PORT_EMIF_CONFIG_OFFSET : Nat := 4

def SZ_1G : Nat := 1073741824

def SZ_8 : Nat := 8

/-- The fixed three-entry physical bank table dram_bank_info. -/
def dram_bank_info : List dram_bank_info_s :=
  [⟨0x80000000, 0x80000000⟩, ⟨0x880000000, 0x780000000⟩, ⟨0x8800000000, 0x7800000000⟩]

/-- IO96B CSR base addresses, io96b_csr_reg_addr. -/
def io96b_csr_reg_addr : List Nat := [0x18400000, 0x18800000]

/-- The slice of struct io96b_info populated by populate_ddr_handoff. -/
structure io96b_info where
  num_port : Nat
  num_instance : Nat
  io96b_pll : Nat
  csr_addrs : List Nat
deriving DecidableEq

/-- Oracle for every collaborator call the orchestrator makes and for the
build-time configuration.  Each field is the result the corresponding
external call would produce on this run. -/
structure Collab where
  handoff_read_ok : Bool
  handoff_table : List Nat
  ccu_ok : Bool
  init_cal_flag : Nat → Bool
  recal_ok : Bool
  tech_ok : Bool
  width_ok : Bool
  overall_size : Nat
  fdt_ok : Bool
  fdt_ram_size : Nat
  fdt_banks : List Bank
  config_nr_dram_banks : Nat
  ecc_call_ok : Bool
  ecc_status : Bool
  bist_ok : Bool

/-- Persistent scratch-register state read at entry: the in-progress
marker (is_ddr_init_hang), the two double-bit-error markers
(hps_ocram_dbe_status, ddr_ecc_dbe_status) and the decoded reset type. -/
structure Persist where
  hang_marker : Bool
  ocram_dbe : Bool
  ddr_dbe : Bool
  reset_t : reset_type

/-- Observable result of one run of sdram_mmr_init_full: the outcome, the
final value of the DDR-progress marker bit, the bd.bi_dram bank layout,
gd->ram_size at exit, the warnings printed, the calibration state around
the recalibration decision, and whether the full-init (BIST) pass ran. -/
structure RunResult where
  outcome : InitOutcome
  marker : Bool
  banks : List Bank
  resolved_size : Nat
  warned_mismatch : Bool
  warned_bank_cap : Bool
  cal_flags_after_dbe : List Bool
  overall_cal_from_init : Bool
  overall_after_dbe : Bool
  recal_triggered : Bool
  full_init_performed : Bool
deriving DecidableEq

/-- Modelled from the spec: socfpga_handoff_read lives in
arch/arm/mach-socfpga/wrap_handoff_soc64.c, which is not among the source
files; the spec (section 6) fixes its contract as read_handoff_blob,
failing with HandoffUnavailable when the table cannot be read. -/
def socfpga_handoff_read (c : Collab) : Except DDRError (List Nat) :=
  if c.handoff_read_ok then .ok c.handoff_table else .error DDRError.HandoffUnavailable

/-- populate_ddr_handoff from sdram_agilex5.c.  The source calls
socfpga_handoff_read without using its result, decodes the 32-bit word at
index PORT_EMIF_CONFIG_OFFSET of the handoff table (dual-port bit 0,
dual-EMIF bit 1, PLL mask bits 16 to 19 via FIELD_GET), assigns the CSR
base address of each discovered instance, and returns 0 unconditionally.
The pair returned here is the populated topology and the C return value. -/
def populate_ddr_handoff (c : Collab) : io96b_info × Int :=
  let _rd := socfpga_handoff_read c
  let handoff_table := c.handoff_table
  let w := handoff_table.getD PORT_EMIF_CONFIG_OFFSET 0
  let dualport := w &&& 1
  let num_port := if dualport ≠ 0 then 2 else 1
  let dualemif := (w >>> 1) &&& 1
  let num_instance := if dualemif ≠ 0 then 2 else 1
  let pll := (w >>> 16) &&& 15
  (⟨num_port, num_instance, pll, io96b_csr_reg_addr.take num_instance⟩, 0)

/-- The auto-partition loop body of sdram_mmr_init_full (lines 333-348):
walk the bank table in order; if the remaining size fits in the current
bank, assign exactly the remainder and stop; otherwise assign the bank's
full capacity and continue with the rest. -/
def fill_banks : List dram_bank_info_s → Nat → List Bank
  | [], _ => []
  | b :: rest, remaining =>
    if remaining ≤ b.max_size then
      [⟨b.start, remaining⟩]
    else
      ⟨b.start, b.max_size⟩ :: fill_banks rest (remaining - b.max_size)

/-- Overwriting of a prefix of the bd.bi_dram array: the loop writes
entries 0..k-1 and leaves the later entries as the device-tree decode
left them. -/
def overwrite_banks (new old : List Bank) : List Bank :=
  new ++ old.drop new.length

/-- Result of the calibration block of sdram_mmr_init_full (lines
260-277): the per-instance flags and the aggregate flag as init_mem_cal
and io96b_mb_init left them, the same after the DRAM-DBE clearing loop,
and whether the recalibration trigger fires.  init_mem_cal and
io96b_mb_init live in iossm_mailbox.c, outside the source files; they are
modelled from the spec (section 3): the aggregate flag is true iff every
per-instance flag is true. -/
structure CalState where
  flags0 : List Bool
  overall0 : Bool
  flags1 : List Bool
  overall1 : Bool
  recal : Bool
deriving DecidableEq

def calibration_block (c : Collab) (p : Persist) (n : Nat) : CalState :=
  let flags0 := (List.range n).map c.init_cal_flag
  let overall0 := flags0.all (fun b => b)
  let flags1 := if p.ddr_dbe then flags0.map (fun _ => false) else flags0
  let overall1 := if p.ddr_dbe then false else overall0
  { flags0 := flags0, overall0 := overall0, flags1 := flags1, overall1 := overall1,
    recal := !overall1 }

/-- Result of the geometry block of sdram_mmr_init_full (lines 307-351):
the bank layout, the resolved gd->ram_size, the two warnings, and whether
the declared size exceeded the hardware size (the condition under which
the source hangs). -/
structure GeoState where
  banks : List Bank
  resolved : Nat
  warned : Bool
  warnedCap : Bool
  exceeds : Bool
deriving DecidableEq

def geometry_block (c : Collab) (hw_size : Nat) : GeoState :=
  let gd_ram := c.fdt_ram_size
  let warned := decide (0 < gd_ram) && decide (gd_ram ≠ hw_size)
  if hw_size < gd_ram then
    { banks := c.fdt_banks, resolved := gd_ram, warned := warned, warnedCap := false,
      exceeds := true }
  else
    let doPart := decide (gd_ram = 0) && decide (0 < hw_size)
    let warnedCap := doPart && decide (MEMORY_BANK_MAX_COUNT < c.config_nr_dram_banks)
    let eff := if MEMORY_BANK_MAX_COUNT < c.config_nr_dram_banks then
      MEMORY_BANK_MAX_COUNT else c.config_nr_dram_banks
    let banks1 := if doPart then
      overwrite_banks (fill_banks (dram_bank_info.take eff) hw_size) c.fdt_banks
      else c.fdt_banks
    let gd_ram1 := if doPart then hw_size else gd_ram
    { banks := banks1, resolved := gd_ram1, warned := warned, warnedCap := warnedCap,
      exceeds := false }

/-- The ECC full-initialization decision of sdram_mmr_init_full (lines
362-368): the BIST pass runs iff ECC is enabled and (a DBE marker or the
prior in-progress flag is set, or the reset is neither warm nor cold). -/
def bist_decision (c : Collab) (p : Persist) : Bool :=
  let full_mem_init := p.ocram_dbe || p.ddr_dbe || p.hang_marker
  c.ecc_status && (full_mem_init ||
    !(decide (p.reset_t = reset_type.WARM_RESET) ||
      decide (p.reset_t = reset_type.COLD_RESET)))

/-- Shallow embedding of sdram_mmr_init_full, following the source order:
read scratch state, record the prior in-progress marker, set the marker,
populate the handoff, configure sideband and CCU, initialize calibration,
clear calibration flags on a DRAM DBE, trigger recalibration when the
aggregate flag is false, query technology and width, decode the board
descriptor, reconcile geometry (warn on mismatch, hang when the declared
size exceeds hardware, auto-partition when the declared size is zero),
query ECC status, run the destructive BIST pass when required, and clear
the marker only on the successful return.
Collaborator steps whose code is outside the source files follow the
spec's contracts: trig_mem_cal surfaces a failed recalibration as the
fatal CalibrationFailed (spec section 4.4); sdram_size_check,
sdram_set_firewall and the three firewall register writes are modelled as
infallible (spec sections 4.7 and 6).  The stage functions are pure, so
hoisting them above the early-exit tests preserves the source behavior
exactly; each exit record carries the observables computed up to that
exit. -/
def sdram_mmr_init_full (c : Collab) (p : Persist) : RunResult :=
  let pop := populate_ddr_handoff c
  let cal := calibration_block c p pop.1.num_instance
  let hw_size := c.overall_size * SZ_1G / SZ_8
  let geo := geometry_block c hw_size
  let bist_run := bist_decision c p
  if pop.2 ≠ 0 then
    { outcome := .err .HandoffUnavailable, marker := true, banks := [], resolved_size := 0,
      warned_mismatch := false, warned_bank_cap := false, cal_flags_after_dbe := [],
      overall_cal_from_init := true, overall_after_dbe := true, recal_triggered := false,
      full_init_performed := false }
  else if !c.ccu_ok then
    { outcome := .hang .ProfileNotFound, marker := true, banks := [], resolved_size := 0,
      warned_mismatch := false, warned_bank_cap := false, cal_flags_after_dbe := [],
      overall_cal_from_init := true, overall_after_dbe := true, recal_triggered := false,
      full_init_performed := false }
  else if cal.recal && !c.recal_ok then
    { outcome := .err .CalibrationFailed, marker := true, banks := [], resolved_size := 0,
      warned_mismatch := false, warned_bank_cap := false, cal_flags_after_dbe := cal.flags1,
      overall_cal_from_init := cal.overall0, overall_after_dbe := cal.overall1,
      recal_triggered := cal.recal, full_init_performed := false }
  else if !c.tech_ok then
    { outcome := .err .QueryFailed, marker := true, banks := [], resolved_size := 0,
      warned_mismatch := false, warned_bank_cap := false, cal_flags_after_dbe := cal.flags1,
      overall_cal_from_init := cal.overall0, overall_after_dbe := cal.overall1,
      recal_triggered := cal.recal, full_init_performed := false }
  else if !c.width_ok then
    { outcome := .err .QueryFailed, marker := true, banks := [], resolved_size := 0,
      warned_mismatch := false, warned_bank_cap := false, cal_flags_after_dbe := cal.flags1,
      overall_cal_from_init := cal.overall0, overall_after_dbe := cal.overall1,
      recal_triggered := cal.recal, full_init_performed := false }
  else if !c.fdt_ok then
    { outcome := .err .DescriptorDecodeFailed, marker := true, banks := [],
      resolved_size := 0, warned_mismatch := false, warned_bank_cap := false,
      cal_flags_after_dbe := cal.flags1, overall_cal_from_init := cal.overall0,
      overall_after_dbe := cal.overall1, recal_triggered := cal.recal,
      full_init_performed := false }
  else if geo.exceeds then
    { outcome := .hang .GeometryExceedsHardware, marker := true, banks := geo.banks,
      resolved_size := geo.resolved, warned_mismatch := geo.warned,
      warned_bank_cap := geo.warnedCap, cal_flags_after_dbe := cal.flags1,
      overall_cal_from_init := cal.overall0, overall_after_dbe := cal.overall1,
      recal_triggered := cal.recal, full_init_performed := false }
  else if !c.ecc_call_ok then
    { outcome := .err .QueryFailed, marker := true, banks := geo.banks,
      resolved_size := geo.resolved, warned_mismatch := geo.warned,
      warned_bank_cap := geo.warnedCap, cal_flags_after_dbe := cal.flags1,
      overall_cal_from_init := cal.overall0, overall_after_dbe := cal.overall1,
      recal_triggered := cal.recal, full_init_performed := false }
  else if bist_run && !c.bist_ok then
    { outcome := .err .FullInitFailed, marker := true, banks := geo.banks,
      resolved_size := geo.resolved, warned_mismatch := geo.warned,
      warned_bank_cap := geo.warnedCap, cal_flags_after_dbe := cal.flags1,
      overall_cal_from_init := cal.overall0, overall_after_dbe := cal.overall1,
      recal_triggered := cal.recal, full_init_performed := true }
  else
    { outcome := .ok ((geo.banks.getD 0 ⟨0, 0⟩).start) geo.resolved, marker := false,
      banks := geo.banks, resolved_size := geo.resolved, warned_mismatch := geo.warned,
      warned_bank_cap := geo.warnedCap, cal_flags_after_dbe := cal.flags1,
      overall_cal_from_init := cal.overall0, overall_after_dbe := cal.overall1,
      recal_triggered := cal.recal, full_init_performed := bist_run }

/-- Modelled from the spec: the field decode used by get_reset_type.  The
constants ALT_SYSMGR_SCRATCH_REG_3_DDR_RESET_TYPE_MASK and _SHIFT are
defined in a system-manager header that is not among the source files, so
the width of the field is unknown here; the spec (section 4.1) fixes only
that the classifier is a pure total mapping onto the six-value ResetCause
enum that cannot fail, so field values beyond the six enumerators are
mapped to POR_RESET to keep the decode total. -/
def reset_type_of_field : Nat → reset_type
  | 0 => .POR_RESET
  | 1 => .WARM_RESET
  | 2 => .COLD_RESET
  | 3 => .NCONFIG
  | 4 => .JTAG_CONFIG
  | 5 => .RSU_RECONFIG
  | _ + 6 => .POR_RESET

/-- get_reset_type from sdram_agilex5.c: (reg & MASK) >> SHIFT cast to the
enum, with the mask and shift kept as parameters because their values come
from a header outside the source files. -/
def get_reset_type (mask shift reg : Nat) : reset_type :=
  reset_type_of_field ((reg &&& mask) >>> shift)

/-- setbits_le32 on a register value. -/
def setbits_le32 (reg mask : Nat) : Nat := reg ||| mask

/-- clrbits_le32 on a register value: clearing under a 32-bit bitwise
complement of the mask. -/
def clrbits_le32 (reg mask : Nat) : Nat := reg &&& (mask ^^^ (2 ^ 32 - 1))

/-- Modelled from the spec: ALT_SYSMGR_SCRATCH_REG_POR_0_DDR_PROGRESS_MASK
comes from a system-manager header that is not among the source files;
the spec (section 3, BringupState) describes the marker as a single
persistent bit, so the mask is a single bit at an arbitrary position k
below the register width. -/
def ddr_progress_mask (k : Nat) : Nat := 2 ^ k

/-- is_ddr_init_hang from sdram_agilex5.c at register level: true iff the
DDR-progress bit of BOOT_SCRATCH_POR0 is set. -/
def is_ddr_init_hang (k reg : Nat) : Bool := decide (reg &&& ddr_progress_mask k ≠ 0)

/-- ddr_init_inprogress from sdram_agilex5.c at register level: set or
clear the DDR-progress bit of BOOT_SCRATCH_POR0. -/
def ddr_init_inprogress (k : Nat) (start : Bool) (reg : Nat) : Nat :=
  if start then setbits_le32 reg (ddr_progress_mask k)
  else clrbits_le32 reg (ddr_progress_mask k)

/-- The fill loop assigns at most as many banks as the table has. -/
theorem fill_banks_length_le : ∀ (bs : List dram_bank_info_s) (r : Nat),
    (fill_banks bs r).length ≤ bs.length
  | [], _ => by simp [fill_banks]
  | b :: rest, r => by
    by_cases hle : r ≤ b.max_size
    · simp [fill_banks, hle]
    · simpa [fill_banks, hle, Nat.succ_le_succ_iff] using
        fill_banks_length_le rest (r - b.max_size)

/-- When the size to distribute is positive and fits in the total capacity
of the table, the assigned bank sizes sum to exactly that size. -/
theorem fill_banks_sum : ∀ (bs : List dram_bank_info_s) (r : Nat), 0 < r →
    r ≤ (bs.map (fun b => b.max_size)).sum →
    ((fill_banks bs r).map (fun b => b.size)).sum = r
  | [], r, h0, h1 => by simp at h1; omega
  | b :: rest, r, h0, h1 => by
    by_cases hle : r ≤ b.max_size
    · simp [fill_banks, hle]
    · have hlt : b.max_size < r := Nat.lt_of_not_le hle
      have h0' : 0 < r - b.max_size := by omega
      have h1' : r - b.max_size ≤ (rest.map (fun b => b.max_size)).sum := by
        simp only [List.map_cons, List.sum_cons] at h1; omega
      simp only [fill_banks, if_neg hle, List.map_cons, List.sum_cons,
        fill_banks_sum rest (r - b.max_size) h0' h1']
      omega

/-- No assigned bank exceeds the capacity of its table entry. -/
theorem fill_banks_getD_size_le : ∀ (bs : List dram_bank_info_s) (r i : Nat),
    i < (fill_banks bs r).length →
    ((fill_banks bs r).getD i ⟨0, 0⟩).size ≤ (bs.getD i ⟨0, 0⟩).max_size
  | [], r, i, h => by simp [fill_banks] at h
  | b :: rest, r, 0, h => by
    by_cases hle : r ≤ b.max_size
    · simp [fill_banks, hle]
    · simp [fill_banks, hle]
  | b :: rest, r, i + 1, h => by
    by_cases hle : r ≤ b.max_size
    · simp [fill_banks, hle] at h
    · have h' : i < (fill_banks rest (r - b.max_size)).length := by
        simpa [fill_banks, hle] using h
      simpa [fill_banks, hle] using fill_banks_getD_size_le rest (r - b.max_size) i h'

/-- Every assigned bank takes its start address from its table entry. -/
theorem fill_banks_getD_start : ∀ (bs : List dram_bank_info_s) (r i : Nat),
    i < (fill_banks bs r).length →
    ((fill_banks bs r).getD i ⟨0, 0⟩).start = (bs.getD i ⟨0, 0⟩).start
  | [], r, i, h => by simp [fill_banks] at h
  | b :: rest, r, 0, h => by
    by_cases hle : r ≤ b.max_size
    · simp [fill_banks, hle]
    · simp [fill_banks, hle]
  | b :: rest, r, i + 1, h => by
    by_cases hle : r ≤ b.max_size
    · simp [fill_banks, hle] at h
    · have h' : i < (fill_banks rest (r - b.max_size)).length := by
        simpa [fill_banks, hle] using h
      simpa [fill_banks, hle] using fill_banks_getD_start rest (r - b.max_size) i h'

/-- Every assigned bank except the final one is filled to its full
capacity; together with the sum property this says the loop stops at the
first bank whose capacity covers the remainder and gives it exactly the
remainder. -/
theorem fill_banks_full_of_not_last : ∀ (bs : List dram_bank_info_s) (r i : Nat),
    i + 1 < (fill_banks bs r).length →
    ((fill_banks bs r).getD i ⟨0, 0⟩).size = (bs.getD i ⟨0, 0⟩).max_size
  | [], r, i, h => by simp [fill_banks] at h
  | b :: rest, r, 0, h => by
    by_cases hle : r ≤ b.max_size
    · simp [fill_banks, hle] at h
    · simp [fill_banks, hle]
  | b :: rest, r, i + 1, h => by
    by_cases hle : r ≤ b.max_size
    · simp [fill_banks, hle] at h
    · have h' : i + 1 < (fill_banks rest (r - b.max_size)).length := by
        simpa [fill_banks, hle] using h
      simpa [fill_banks, hle] using fill_banks_full_of_not_last rest (r - b.max_size) i h'

/-- Claim C7: for every reset-cause register value (and any fixed bitfield
mask and shift), the reset classifier returns exactly one of the six
enumerated causes, is a pure function of the register value that cannot
fail, and is deterministic. -/
theorem c7_reset_classifier_total (mask shift reg : Nat) :
    (get_reset_type mask shift reg = reset_type.POR_RESET ∨
     get_reset_type mask shift reg = reset_type.WARM_RESET ∨
     get_reset_type mask shift reg = reset_type.COLD_RESET ∨
     get_reset_type mask shift reg = reset_type.NCONFIG ∨
     get_reset_type mask shift reg = reset_type.JTAG_CONFIG ∨
     get_reset_type mask shift reg = reset_type.RSU_RECONFIG) ∧
    (∀ reg2, reg = reg2 →
      get_reset_type mask shift reg = get_reset_type mask shift reg2) := by
  constructor
  · cases h : get_reset_type mask shift reg <;> simp
  · intro reg2 he
    rw [he]

/-- Witness for C7 at the concrete register value 0x60000000 with a
three-bit field at bit 29. -/
theorem c7_reset_classifier_total_witness :
    get_reset_type 0xE0000000 29 0x60000000 = reset_type.POR_RESET ∨
    get_reset_type 0xE0000000 29 0x60000000 = reset_type.WARM_RESET ∨
    get_reset_type 0xE0000000 29 0x60000000 = reset_type.COLD_RESET ∨
    get_reset_type 0xE0000000 29 0x60000000 = reset_type.NCONFIG ∨
    get_reset_type 0xE0000000 29 0x60000000 = reset_type.JTAG_CONFIG ∨
    get_reset_type 0xE0000000 29 0x60000000 = reset_type.RSU_RECONFIG :=
  (c7_reset_classifier_total 0xE0000000 29 0x60000000).1

/-- Claim C8: for every valid handoff blob, the decode of the 32-bit word
at the fixed table offset gives port_count 2 exactly when bit 0 is set,
instance_count 2 exactly when bit 1 is set (1 otherwise), and the PLL
enable mask is bits 16 to 19 of that word. -/
theorem c8_handoff_decode (c : Collab) (_h : c.handoff_read_ok = true) :
    ((c.handoff_table.getD PORT_EMIF_CONFIG_OFFSET 0).testBit 0 = true →
      (populate_ddr_handoff c).1.num_port = 2) ∧
    ((c.handoff_table.getD PORT_EMIF_CONFIG_OFFSET 0).testBit 0 = false →
      (populate_ddr_handoff c).1.num_port = 1) ∧
    ((c.handoff_table.getD PORT_EMIF_CONFIG_OFFSET 0).testBit 1 = true →
      (populate_ddr_handoff c).1.num_instance = 2) ∧
    ((c.handoff_table.getD PORT_EMIF_CONFIG_OFFSET 0).testBit 1 = false →
      (populate_ddr_handoff c).1.num_instance = 1) ∧
    (populate_ddr_handoff c).1.io96b_pll =
      (c.handoff_table.getD PORT_EMIF_CONFIG_OFFSET 0) / 2 ^ 16 % 2 ^ 4 := by
  simp only [populate_ddr_handoff]
  generalize c.handoff_table.getD PORT_EMIF_CONFIG_OFFSET 0 = w
  refine ⟨?_, ?_, ?_, ?_, ?_⟩
  · intro hb
    have hm : w % 2 = 1 := by simpa using hb
    have hc : w &&& 1 ≠ 0 := by rw [Nat.and_one_is_mod]; omega
    simp [hc, hm]
  · intro hb
    have hm : w % 2 ≠ 1 := by simpa using hb
    have hc : ¬(w &&& 1 ≠ 0) := by rw [Nat.and_one_is_mod]; omega
    simp [hc]
    omega
  · intro hb
    have hm : (w >>> 1) % 2 = 1 := by
      rw [Nat.shiftRight_eq_div_pow]
      rw [Nat.testBit_to_div_mod] at hb
      simpa using hb
    have hc : (w >>> 1) &&& 1 ≠ 0 := by rw [Nat.and_one_is_mod]; omega
    simp [hc, hm]
  · intro hb
    have hm : (w >>> 1) % 2 ≠ 1 := by
      rw [Nat.shiftRight_eq_div_pow]
      rw [Nat.testBit_to_div_mod] at hb
      simpa using hb
    have hc : ¬((w >>> 1) &&& 1 ≠ 0) := by rw [Nat.and_one_is_mod]; omega
    simp [hc]
    omega
  · have h15 : (15 : Nat) = 2 ^ 4 - 1 := by norm_num
    rw [h15, Nat.and_pow_two_sub_one_eq_mod, Nat.shiftRight_eq_div_pow]

/-- A concrete all-success oracle: handoff word 0x000A0003 (dual port,
dual EMIF, PLL mask 0xA), 4 GiB of hardware memory (32 Gbit reported by
the mailbox), device tree deferring to hardware, ECC capable, every
collaborator call succeeding. -/
def okCollab : Collab :=
  { handoff_read_ok := true, handoff_table := [0, 0, 0, 0, 0x000A0003],
    ccu_ok := true, init_cal_flag := fun _ => true, recal_ok := true,
    tech_ok := true, width_ok := true, overall_size := 32, fdt_ok := true,
    fdt_ram_size := 0, fdt_banks := [], config_nr_dram_banks := 3,
    ecc_call_ok := true, ecc_status := true, bist_ok := true }

/-- A concrete persistent state: clean history, power-on reset. -/
def okPersist : Persist :=
  { hang_marker := false, ocram_dbe := false, ddr_dbe := false,
    reset_t := reset_type.POR_RESET }

/-- Witness for C8 on the concrete handoff word 0x000A0003. -/
theorem c8_handoff_decode_witness :
    (populate_ddr_handoff okCollab).1.num_port = 2 ∧
    (populate_ddr_handoff okCollab).1.num_instance = 2 ∧
    (populate_ddr_handoff okCollab).1.io96b_pll = 10 :=
  ⟨(c8_handoff_decode okCollab (by decide)).1 (by decide),
   (c8_handoff_decode okCollab (by decide)).2.2.1 (by decide),
   by
    have := (c8_handoff_decode okCollab (by decide)).2.2.2.2
    simpa using this⟩

/-- Claim C10: for every initial value of the persistent boot scratch
register, after ddr_init_inprogress(b) the flag read back by
is_ddr_init_hang is exactly b, and only the DDR-progress bit of the
register changes. -/
theorem c10_progress_bit_roundtrip (k reg : Nat) (b : Bool)
    (hk : k < 32) (hreg : reg < 2 ^ 32) :
    is_ddr_init_hang k (ddr_init_inprogress k b reg) = b ∧
    ∀ j, j ≠ k → Nat.testBit (ddr_init_inprogress k b reg) j = Nat.testBit reg j := by
  cases b with
  | false =>
    refine ⟨?_, ?_⟩
    · have hx : (reg &&& (ddr_progress_mask k ^^^ (2 ^ 32 - 1))) &&&
          ddr_progress_mask k = 0 := by
        apply Nat.eq_of_testBit_eq
        intro i
        simp only [Nat.testBit_and, Nat.testBit_xor, Nat.zero_testBit, ddr_progress_mask,
          Nat.testBit_two_pow, Nat.testBit_two_pow_sub_one]
        by_cases hik : k = i
        · subst hik; simp [hk]
        · simp [hik]
      simp only [is_ddr_init_hang, ddr_init_inprogress, Bool.false_eq_true, ite_false,
        clrbits_le32]
      rw [hx]
      simp
    · intro j hj
      simp only [ddr_init_inprogress, Bool.false_eq_true, ite_false, clrbits_le32,
        ddr_progress_mask]
      simp only [Nat.testBit_and, Nat.testBit_xor, Nat.testBit_two_pow,
        Nat.testBit_two_pow_sub_one]
      by_cases hj32 : j < 32
      · have hkj : (k = j) = False := by simp [Ne.symm hj]
        simp [hkj, hj32]
      · have hz : Nat.testBit reg j = false :=
          Nat.testBit_lt_two_pow (lt_of_lt_of_le hreg
            (Nat.pow_le_pow_right (by norm_num) (le_of_not_lt hj32)))
        simp [hz]
  | true =>
    refine ⟨?_, ?_⟩
    · have hx : Nat.testBit ((reg ||| ddr_progress_mask k) &&& ddr_progress_mask k) k =
          true := by
        simp [Nat.testBit_and, Nat.testBit_or, ddr_progress_mask, Nat.testBit_two_pow]
      simp only [is_ddr_init_hang, ddr_init_inprogress, ite_true, setbits_le32]
      rw [decide_eq_true_eq]
      intro h0
      rw [h0] at hx
      simp at hx
    · intro j hj
      simp only [ddr_init_inprogress, ite_true, setbits_le32]
      simp [Nat.testBit_or, ddr_progress_mask, Nat.testBit_two_pow, Ne.symm hj]

/-- Witness for C10 with the progress bit at position 0, register value 4,
checking the flag after setting and that bit 2 is untouched. -/
theorem c10_progress_bit_roundtrip_witness :
    is_ddr_init_hang 0 (ddr_init_inprogress 0 true 4) = true ∧
    Nat.testBit (ddr_init_inprogress 0 true 4) 2 = Nat.testBit 4 2 :=
  ⟨(c10_progress_bit_roundtrip 0 4 true (by decide) (by norm_num)).1,
   (c10_progress_bit_roundtrip 0 4 true (by decide) (by norm_num)).2 2 (by decide)⟩

/-- Claim C4: the persistent in-progress marker is set at orchestration
start (it is true on every exit path that is not the successful return),
left set on every fatal-error exit, and cleared exactly when the run
reaches the successful return. -/
theorem c4_inprogress_marker (c : Collab) (p : Persist) :
    (sdram_mmr_init_full c p).marker = !(sdram_mmr_init_full c p).outcome.isOk := by
  simp only [sdram_mmr_init_full]
  split_ifs <;> simp [InitOutcome.isOk]

/-- Claim C1: for every combination of ecc_capable, OCRAM-DBE marker,
DRAM-DBE marker, prior-in-progress flag and reset cause (with the
collaborator calls before and around the decision succeeding and the
declared size not exceeding hardware, so that the run reaches the
decision), the full destructive memory initialization pass is performed
iff ecc_capable is true and (one of the markers or the prior-in-progress
flag is true, or the reset cause is neither warm nor cold). -/
theorem c1_full_init_decision (c : Collab) (p : Persist)
    (h1 : c.ccu_ok = true) (h2 : c.recal_ok = true) (h3 : c.tech_ok = true)
    (h4 : c.width_ok = true) (h5 : c.fdt_ok = true) (h6 : c.ecc_call_ok = true)
    (h7 : c.fdt_ram_size ≤ c.overall_size * SZ_1G / SZ_8) :
    (sdram_mmr_init_full c p).full_init_performed =
      (c.ecc_status && (p.ocram_dbe || p.ddr_dbe || p.hang_marker ||
        !(decide (p.reset_t = reset_type.WARM_RESET) ||
          decide (p.reset_t = reset_type.COLD_RESET)))) := by
  have hbd : bist_decision c p =
      (c.ecc_status && (p.ocram_dbe || p.ddr_dbe || p.hang_marker ||
        !(decide (p.reset_t = reset_type.WARM_RESET) ||
          decide (p.reset_t = reset_type.COLD_RESET)))) := by
    simp only [bist_decision]
  have hpop : (populate_ddr_handoff c).2 = 0 := rfl
  have hgeo : (geometry_block c (c.overall_size * SZ_1G / SZ_8)).exceeds = false := by
    simp only [geometry_block]
    rw [if_neg (Nat.not_lt.mpr h7)]
  rw [← hbd]
  simp only [sdram_mmr_init_full]
  rw [hpop, hgeo]
  simp only [h1, h2, h3, h4, h5, h6]
  cases hd : bist_decision c p <;> cases hbist : c.bist_ok <;> simp [hd, hbist]

/-- Witness for C1: with the all-success oracle, ECC capable, clean
markers and a power-on reset, the full-init pass runs. -/
theorem c1_full_init_decision_witness :
    (sdram_mmr_init_full okCollab okPersist).full_init_performed = true := by
  rw [c1_full_init_decision okCollab okPersist rfl rfl rfl rfl rfl rfl (by decide)]
  decide

/-- The recalibration trigger of the calibration block: it fires exactly
when a DRAM DBE is flagged or the aggregate flag from initialization is
false. -/
theorem calibration_block_recal (c : Collab) (p : Persist) (n : Nat) :
    (calibration_block c p n).recal =
      (p.ddr_dbe || !(calibration_block c p n).overall0) := by
  cases hd : p.ddr_dbe <;> simp [calibration_block, hd]

/-- On a DRAM DBE the calibration block clears every per-instance flag
and the aggregate flag. -/
theorem calibration_block_dbe_clears (c : Collab) (p : Persist) (n : Nat)
    (h : p.ddr_dbe = true) :
    (calibration_block c p n).flags1.all (fun b => !b) = true ∧
    (calibration_block c p n).overall1 = false := by
  simp [calibration_block, h]

/-- Claim C5: once the run is past the CCU step, recalibration is
triggered iff the DRAM DBE marker is set or the aggregate calibration
flag from initialization is false; when the DBE marker is set, every
per-instance flag and the aggregate flag are cleared before the trigger;
and a failed recalibration surfaces as the fatal CalibrationFailed. -/
theorem c5_recalibration_policy (c : Collab) (p : Persist) (h1 : c.ccu_ok = true) :
    ((sdram_mmr_init_full c p).recal_triggered =
      (p.ddr_dbe || !(sdram_mmr_init_full c p).overall_cal_from_init)) ∧
    (p.ddr_dbe = true →
      (sdram_mmr_init_full c p).cal_flags_after_dbe.all (fun b => !b) = true ∧
      (sdram_mmr_init_full c p).overall_after_dbe = false) ∧
    ((sdram_mmr_init_full c p).recal_triggered = true → c.recal_ok = false →
      (sdram_mmr_init_full c p).outcome = InitOutcome.err DDRError.CalibrationFailed) := by
  have hpop : (populate_ddr_handoff c).2 = 0 := rfl
  have hrec := calibration_block_recal c p (populate_ddr_handoff c).1.num_instance
  have hclr := calibration_block_dbe_clears c p (populate_ddr_handoff c).1.num_instance
  simp [sdram_mmr_init_full, hpop, h1]
  split_ifs <;>
    refine ⟨by simp [hrec], fun hdbe => ?_, fun htr hrf => ?_⟩ <;> simp_all

/-- Witness for C5: with the all-success oracle but a set DRAM DBE
marker, recalibration is triggered. -/
theorem c5_recalibration_policy_witness :
    (sdram_mmr_init_full okCollab
      { okPersist with ddr_dbe := true }).recal_triggered = true := by
  rw [(c5_recalibration_policy okCollab { okPersist with ddr_dbe := true } rfl).1]
  decide

/-- Claim C6: for every declared size that is positive, at most the
hardware size and different from it (and with the collaborator calls
succeeding), the mismatch warning is emitted, the run continues with the
declared size as the resolved total size, and no fatal error occurs. -/
theorem c6_declared_size_mismatch (c : Collab) (p : Persist)
    (h1 : c.ccu_ok = true) (h2 : c.recal_ok = true) (h3 : c.tech_ok = true)
    (h4 : c.width_ok = true) (h5 : c.fdt_ok = true) (h6 : c.ecc_call_ok = true)
    (h7 : c.bist_ok = true)
    (hpos : 0 < c.fdt_ram_size)
    (hle : c.fdt_ram_size ≤ c.overall_size * SZ_1G / SZ_8)
    (hne : c.fdt_ram_size ≠ c.overall_size * SZ_1G / SZ_8) :
    (sdram_mmr_init_full c p).warned_mismatch = true ∧
    (sdram_mmr_init_full c p).resolved_size = c.fdt_ram_size ∧
    (sdram_mmr_init_full c p).outcome.isOk = true := by
  have hgz : ¬(c.fdt_ram_size = 0) := by omega
  have hg : geometry_block c (c.overall_size * SZ_1G / SZ_8) =
      { banks := c.fdt_banks, resolved := c.fdt_ram_size, warned := true,
        warnedCap := false, exceeds := false } := by
    simp [geometry_block, Nat.not_lt.mpr hle, hpos, hne, hgz]
  have hpop : (populate_ddr_handoff c).2 = 0 := rfl
  simp [sdram_mmr_init_full, hpop, h1, h2, h3, h4, h5, h6, h7, hg, InitOutcome.isOk]

/-- Witness for C6: declared size 2 GiB against 4 GiB of hardware memory
resolves to 2 GiB with the warning emitted and a successful run. -/
theorem c6_declared_size_mismatch_witness :
    (sdram_mmr_init_full { okCollab with fdt_ram_size := 2147483648 }
      okPersist).warned_mismatch = true ∧
    (sdram_mmr_init_full { okCollab with fdt_ram_size := 2147483648 }
      okPersist).resolved_size = 2147483648 ∧
    (sdram_mmr_init_full { okCollab with fdt_ram_size := 2147483648 }
      okPersist).outcome.isOk = true :=
  c6_declared_size_mismatch { okCollab with fdt_ram_size := 2147483648 } okPersist
    rfl rfl rfl rfl rfl rfl rfl (by decide) (by decide) (by decide)

/-- Claim C3 (amended): for every declared size strictly greater than the
hardware size, with the run reaching the geometry step, the source fails
fatally by halting the boot (hang()) after printing the error message —
the error is not returned to the caller as a return code — and no bank
assignment is performed: the layout is exactly what the device-tree
decode produced. -/
theorem c3_geometry_exceeds_hw_hangs (c : Collab) (p : Persist)
    (h1 : c.ccu_ok = true) (h2 : c.recal_ok = true) (h3 : c.tech_ok = true)
    (h4 : c.width_ok = true) (h5 : c.fdt_ok = true)
    (hgt : c.overall_size * SZ_1G / SZ_8 < c.fdt_ram_size) :
    (sdram_mmr_init_full c p).outcome = InitOutcome.hang DDRError.GeometryExceedsHardware ∧
    (sdram_mmr_init_full c p).banks = c.fdt_banks := by
  have hex : (geometry_block c (c.overall_size * SZ_1G / SZ_8)).exceeds = true := by
    simp [geometry_block, hgt]
  have hbk : (geometry_block c (c.overall_size * SZ_1G / SZ_8)).banks = c.fdt_banks := by
    simp [geometry_block, hgt]
  have hpop : (populate_ddr_handoff c).2 = 0 := rfl
  simp [sdram_mmr_init_full, hpop, h1, h2, h3, h4, h5, hex, hbk]

/-- Witness for C3 (amended) at declared size 12 GiB over 4 GiB of
hardware memory. -/
theorem c3_geometry_exceeds_hw_hangs_witness :
    (sdram_mmr_init_full { okCollab with fdt_ram_size := 12884901888 }
      okPersist).outcome = InitOutcome.hang DDRError.GeometryExceedsHardware ∧
    (sdram_mmr_init_full { okCollab with fdt_ram_size := 12884901888 }
      okPersist).banks =
      ({ okCollab with fdt_ram_size := 12884901888 } : Collab).fdt_banks :=
  c3_geometry_exceeds_hw_hangs { okCollab with fdt_ram_size := 12884901888 } okPersist
    rfl rfl rfl rfl rfl (by decide)

/-- Counterexample to C3 as stated: at declared size 8 GiB over 4 GiB of
hardware memory the source halts the boot via hang() — the
GeometryExceedsHardware failure is not returned to the caller. -/
theorem c3_geometry_error_not_returned :
    (sdram_mmr_init_full { okCollab with fdt_ram_size := 8589934592 }
      okPersist).outcome = InitOutcome.hang DDRError.GeometryExceedsHardware ∧
    (sdram_mmr_init_full { okCollab with fdt_ram_size := 8589934592 }
      okPersist).outcome ≠ InitOutcome.err DDRError.GeometryExceedsHardware := by
  decide

/-- Claim C2 (amended): for every hardware size that is positive and at
most the total capacity of the fixed three-entry bank table (2^39 bytes),
when the declared size is 0 and the effective bank count is the full
table, the auto-partition loop assigns exactly the fill-loop layout
(banks in address order, each bank its full capacity until the first bank
whose capacity covers the remainder, which receives exactly the
remainder), the assigned sizes sum to the hardware size, no assigned bank
exceeds its capacity, and the resolved total size equals the hardware
size.  For hardware sizes above 2^39 the sum property fails (see the
counterexample), which is what forces the added bound. -/
theorem c2_partition_bounded_correct (c : Collab) (p : Persist) (hw : Nat)
    (h1 : c.ccu_ok = true) (h2 : c.recal_ok = true) (h3 : c.tech_ok = true)
    (h4 : c.width_ok = true) (h5 : c.fdt_ok = true)
    (hdecl : c.fdt_ram_size = 0) (hcfg : c.config_nr_dram_banks = 3)
    (hhw : c.overall_size * SZ_1G / SZ_8 = hw)
    (hpos : 0 < hw) (hcap : hw ≤ 549755813888) :
    (sdram_mmr_init_full c p).banks =
      fill_banks dram_bank_info hw ++
        c.fdt_banks.drop (fill_banks dram_bank_info hw).length ∧
    ((fill_banks dram_bank_info hw).map (fun b => b.size)).sum = hw ∧
    (∀ i, i < (fill_banks dram_bank_info hw).length →
      ((fill_banks dram_bank_info hw).getD i ⟨0, 0⟩).size ≤
        (dram_bank_info.getD i ⟨0, 0⟩).max_size ∧
      ((fill_banks dram_bank_info hw).getD i ⟨0, 0⟩).start =
        (dram_bank_info.getD i ⟨0, 0⟩).start) ∧
    (∀ i, i + 1 < (fill_banks dram_bank_info hw).length →
      ((fill_banks dram_bank_info hw).getD i ⟨0, 0⟩).size =
        (dram_bank_info.getD i ⟨0, 0⟩).max_size) ∧
    (sdram_mmr_init_full c p).resolved_size = hw := by
  have htake : dram_bank_info.take 3 = dram_bank_info := rfl
  have hgb : geometry_block c hw =
      { banks := overwrite_banks (fill_banks dram_bank_info hw) c.fdt_banks,
        resolved := hw, warned := false, warnedCap := false, exceeds := false } := by
    simp [geometry_block, hdecl, hcfg, hpos, MEMORY_BANK_MAX_COUNT, htake]
  have hpop : (populate_ddr_handoff c).2 = 0 := rfl
  have hrun : (sdram_mmr_init_full c p).banks =
      overwrite_banks (fill_banks dram_bank_info hw) c.fdt_banks ∧
      (sdram_mmr_init_full c p).resolved_size = hw := by
    simp [sdram_mmr_init_full, hpop, h1, h2, h3, h4, h5, hhw, hgb]
    split_ifs <;> simp
  have hsum : (dram_bank_info.map (fun b => b.max_size)).sum = 549755813888 := rfl
  refine ⟨?_, ?_, ?_, ?_, hrun.2⟩
  · rw [hrun.1]
    simp [overwrite_banks]
  · exact fill_banks_sum dram_bank_info hw hpos (by omega)
  · intro i hi
    exact ⟨fill_banks_getD_size_le dram_bank_info hw i hi,
           fill_banks_getD_start dram_bank_info hw i hi⟩
  · intro i hi
    exact fill_banks_full_of_not_last dram_bank_info hw i hi
  
/-- Witness for C2 (amended) at 4 GiB of hardware memory with declared
size 0: the resolved size is 4 GiB and the assigned sizes sum to 4 GiB. -/
theorem c2_partition_bounded_correct_witness :
    (sdram_mmr_init_full okCollab okPersist).resolved_size = 4294967296 ∧
    ((fill_banks dram_bank_info 4294967296).map (fun b => b.size)).sum = 4294967296 :=
  ⟨(c2_partition_bounded_correct okCollab okPersist 4294967296 rfl rfl rfl rfl rfl rfl
      rfl (by decide) (by decide) (by decide)).2.2.2.2,
   (c2_partition_bounded_correct okCollab okPersist 4294967296 rfl rfl rfl rfl rfl rfl
      rfl (by decide) (by decide) (by decide)).2.1⟩

/-- Counterexample to C2 as stated: at hardware size 2^40 bytes (1 TiB,
above the 2^39 total capacity of the fixed bank table) with declared size
0, the three assigned banks sum to 2^39 bytes while the resolved total
size is 2^40, so the assigned sizes do not sum to the hardware size. -/
theorem c2_partition_sum_counterexample :
    ((sdram_mmr_init_full { okCollab with overall_size := 8192 } okPersist).banks.map
      (fun b => b.size)).sum = 549755813888 ∧
    (sdram_mmr_init_full { okCollab with overall_size := 8192 }
      okPersist).resolved_size = 1099511627776 := by
  decide

/-- Claim C9 exhibit: the source discards the result of
socfpga_handoff_read (line 117) and populate_ddr_handoff returns 0
unconditionally, so a failed handoff read is never surfaced.  With every
other collaborator succeeding but the handoff read failing, the modelled
read fails with HandoffUnavailable, yet populate_ddr_handoff reports
success and the bring-up run completes successfully instead of aborting
with HandoffUnavailable; the orchestrator's error branch for
populate_ddr_handoff (lines 239-243) is dead code. -/
theorem c9_handoff_failure_ignored :
    socfpga_handoff_read { okCollab with handoff_read_ok := false } =
      Except.error DDRError.HandoffUnavailable ∧
    (populate_ddr_handoff { okCollab with handoff_read_ok := false }).2 = 0 ∧
    (sdram_mmr_init_full { okCollab with handoff_read_ok := false }
      okPersist).outcome.isOk = true :=
  ⟨rfl, rfl, by decide⟩
